import Mathlib

/-!
Shallow embedding of the copy-trade bot (alisonborba/hyperliquid-copytrade-bot)
for checking its natural-language specification.

Conventions of the embedding:
* Python floats and Decimals are modelled as rationals (ℚ); Python ints as ℤ/ℕ.
* A Python function that may raise is modelled as returning `Except String α`.
* An effectful call whose result can differ between invocations (a provider
  call, a risk-limit poll) is modelled by a behaviour function `ℕ → β` giving
  the result of the n-th invocation.
-/

namespace CopyTradeBot

/-! ## Data model (`copy_trade_bot/types.py`) -/

/-- `OrderSide` enumeration (`types.py`). -/
inductive OrderSide where
  | buy
  | sell
  deriving DecidableEq, Repr

/-- `SignalType` enumeration (`types.py`). -/
inductive SignalType where
  | newOrder
  | modifyOrder
  | cancelOrder
  | positionUpdate
  deriving DecidableEq, Repr

/-- `LeaderStatus` enumeration (`types.py`). -/
inductive LeaderStatus where
  | active
  | inactive
  | banned
  | suspended
  deriving DecidableEq, Repr

/-- `Signal` dataclass (`types.py`); the `metadata`, `order_id` and
`position_id` fields are omitted as no embedded operation reads them. -/
structure Signal where
  id : String
  leader_address : String
  signal_type : SignalType
  asset : String
  side : OrderSide
  size : ℚ
  price : Option ℚ
  timestamp : ℕ
  deriving DecidableEq, Repr

/-- `ExecutionResult` dataclass (`types.py`). -/
structure ExecutionResult where
  success : Bool
  order_id : Option String
  filled_size : Option ℚ
  filled_price : Option ℚ
  slippage : Option ℚ
  error : Option String
  timestamp : ℕ
  deriving DecidableEq, Repr

/-- `Leader` dataclass (`types.py`); the `metrics`, `positions`, `open_orders`
and `last_activity` fields are omitted as no embedded operation reads them. -/
structure Leader where
  address : String
  status : LeaderStatus
  equity : ℚ
  weight : ℚ
  deriving DecidableEq, Repr

/-- Modelled from the spec: `RiskState` (§3 of the spec) — the cached running
totals (total exposure, daily PnL, trading-halted flag) that the spec's risk
pre-check consults.  No such structure exists in the code; the code's
`RiskManager.can_execute_signal` is a `TODO` stub that consults nothing. -/
structure RiskState where
  total_exposure : ℚ
  daily_pnl : ℚ
  halted : Bool
  deriving DecidableEq, Repr

/-! ## Configuration validators (`copy_trade_bot/config.py`) -/

/-- `Config.validate_percentage` (`config.py` lines 75-81):
`if not 0 <= v <= 1: raise ValueError(...)`, else the value is returned
unchanged. -/
def validate_percentage (v : ℚ) : Except String ℚ :=
  if 0 ≤ v ∧ v ≤ 1 then Except.ok v
  else Except.error "Percentage must be between 0 and 1"

/-- `Config.validate_slippage` (`config.py` lines 83-89):
`if v < 0 or v > 1000: raise ValueError(...)`, else the value is returned
unchanged. -/
def validate_slippage (v : ℤ) : Except String ℤ :=
  if v < 0 ∨ v > 1000 then Except.error "Slippage must be between 0 and 1000 bps"
  else Except.ok v

/-- Construction of the risk fields of a `Config`: pydantic runs
`validate_percentage` on `max_daily_loss`, `max_position_size`,
`max_total_exposure` and `validate_slippage` on `default_slippage_bps`;
the first failing validator raises. -/
def validateRiskFields (mdl mps mte : ℚ) (slip : ℤ) :
    Except String (ℚ × ℚ × ℚ × ℤ) :=
  match validate_percentage mdl with
  | Except.error e => Except.error e
  | Except.ok a =>
    match validate_percentage mps with
    | Except.error e => Except.error e
    | Except.ok b =>
      match validate_percentage mte with
      | Except.error e => Except.error e
      | Except.ok c =>
        match validate_slippage slip with
        | Except.error e => Except.error e
        | Except.ok d => Except.ok (a, b, c, d)

/-! ## Retry utilities (`copy_trade_bot/utils/retry.py`) -/

/-- The loop body of `retry_with_backoff.sync_wrapper` (`retry.py` lines
39-77), from a given attempt number with a given number of attempts remaining
after it.  `f k` is the outcome of the k-th invocation of the wrapped
function (`Except.error` = it raised an exception of a caught type).  Returns
the wrapper's outcome together with the number of invocations performed.
When the attempt equals `max_retries` (no attempts remain) the current
exception is re-raised. -/
def retryAux {ε α : Type} (f : ℕ → Except ε α) : ℕ → ℕ → Except ε α × ℕ
  | attempt, 0 =>
    match f attempt with
    | Except.ok a => (Except.ok a, 1)
    | Except.error e => (Except.error e, 1)
  | attempt, rem + 1 =>
    match f attempt with
    | Except.ok a => (Except.ok a, 1)
    | Except.error _ =>
      let p := retryAux f (attempt + 1) rem
      (p.1, p.2 + 1)

/-- `retry_with_backoff(max_retries=n)` applied to a function with invocation
behaviour `f`: the loop `for attempt in range(max_retries + 1)` starting at
attempt 0. -/
def syncWrapper {ε α : Type} (f : ℕ → Except ε α) (max_retries : ℕ) :
    Except ε α × ℕ :=
  retryAux f 0 max_retries

/-- `get_retry_delay` (`retry.py` lines 269-298).  `r` models the value of
`random.random()`, which lies in `[0, 1)`; the source adds
`delay * 0.25 * random.random()` when `jitter` is enabled. -/
def getRetryDelay (attempt : ℕ) (base_delay max_delay exponential_base : ℚ)
    (jitter : Bool) (r : ℚ) : ℚ :=
  let delay := min (base_delay * exponential_base ^ attempt) max_delay
  if jitter then delay + delay * (1 / 4) * r else delay

/-! ## Data client (`copy_trade_bot/data/client.py`) -/

/-- The two upstream providers of `DataClient`: the local node
(`local_client`) and the public API (`public_client`). -/
inductive Provider where
  | primary
  | secondary
  deriving DecidableEq, Repr

/-- One decorated invocation of `DataClient.get_user_state` (`client.py` lines
89-103) with both clients configured, followed by the remaining retries of the
`@retry_on_api_error()` wrapper (default `max_retries = 3`).  `localBeh k` /
`publicBeh k` give the outcome of the provider call made during wrapper
attempt `k`.  The body tries the local node once; on any exception it logs and
falls through to the public API; an exception from the public API escapes the
body and is caught by the wrapper, which retries the whole body, re-raising on
the last attempt.  Returns the outcome and the ordered list of provider calls
made. -/
def getUserStateAux (localBeh publicBeh : ℕ → Except String ℤ) :
    ℕ → ℕ → Except String ℤ × List Provider
  | k, 0 =>
    match localBeh k with
    | Except.ok v => (Except.ok v, [Provider.primary])
    | Except.error _ =>
      match publicBeh k with
      | Except.ok v => (Except.ok v, [Provider.primary, Provider.secondary])
      | Except.error e => (Except.error e, [Provider.primary, Provider.secondary])
  | k, rem + 1 =>
    match localBeh k with
    | Except.ok v => (Except.ok v, [Provider.primary])
    | Except.error _ =>
      match publicBeh k with
      | Except.ok v => (Except.ok v, [Provider.primary, Provider.secondary])
      | Except.error _ =>
        let rest := getUserStateAux localBeh publicBeh (k + 1) rem
        (rest.1, Provider.primary :: Provider.secondary :: rest.2)

/-- `DataClient.get_user_state` under `@retry_on_api_error()` (whose default is
`max_retries = 3`, so up to 4 attempts of the whole body). -/
def getUserStateTrace (localBeh publicBeh : ℕ → Except String ℤ) :
    Except String ℤ × List Provider :=
  getUserStateAux localBeh publicBeh 0 3

/-- `DataClient.get_multiple_leaders_data` (`client.py` lines 229-244):
awaits `get_leader_data` for each address in order; an address whose fetch
raises is logged and skipped, the others are kept.  `fetch` models
`get_leader_data` (`Except.error` = it raised). -/
def getMultipleLeadersData {δ : Type} (fetch : String → Except String δ) :
    List String → List (String × δ)
  | [] => []
  | a :: rest =>
    match fetch a with
    | Except.ok d => (a, d) :: getMultipleLeadersData fetch rest
    | Except.error _ => getMultipleLeadersData fetch rest

/-! ## Stub components (`risk/manager.py`, `signals/processor.py`,
`execution/engine.py`, `leaders/manager.py`) -/

/-- `RiskManager.check_limits` (`risk/manager.py` lines 35-38): a `TODO` stub
that always returns `True`. -/
def check_limits : Bool :=
  true

/-- `RiskManager.can_execute_signal` (`risk/manager.py` lines 40-43): a `TODO`
stub that always returns `True`.  The `max_daily_loss` and `risk` arguments
model the configured limit and the cached risk state reachable through
`self`; the source body (`return True`) reads none of them. -/
def canExecuteSignal (max_daily_loss : ℚ) (risk : RiskState) (s : Signal) : Bool :=
  true

/-- `SignalProcessor.validate_signal` (`signals/processor.py` lines 40-43): a
`TODO` stub that always returns `True`. -/
def validateSignal (s : Signal) : Bool :=
  true

/-- `ExecutionEngine.execute_signal` (`execution/engine.py` lines 37-56): a
`TODO` stub that never submits anything and unconditionally returns a
successful `ExecutionResult` with the placeholder order id
`"test_order_123"`, the signal's own size and price, and zero slippage.  (The
`except` branch is unreachable: the `try` body only constructs a dataclass.) -/
def executeSignal (s : Signal) : ExecutionResult :=
  { success := true
    order_id := some "test_order_123"
    filled_size := some s.size
    filled_price := s.price
    slippage := some 0
    error := none
    timestamp := s.timestamp }

/-- `CopyTradeBot._process_signal` (`main.py` lines 143-167): returns early if
`validate_signal` or `can_execute_signal` is false, otherwise calls
`execute_signal`.  `none` models the early return paths (no execution),
`some r` that `execute_signal` ran and produced `r`. -/
def processSignal (max_daily_loss : ℚ) (risk : RiskState) (s : Signal) :
    Option ExecutionResult :=
  if validateSignal s = false then none
  else if canExecuteSignal max_daily_loss risk s = false then none
  else some (executeSignal s)

/-- `LeaderManager.update_rankings` (`leaders/manager.py` lines 39-45): a
`TODO` stub whose body only logs; the `self.leaders` map is unchanged. -/
def updateRankings (leaders : List Leader) : List Leader :=
  leaders

/-- `LeaderManager.get_active_leaders` (`leaders/manager.py` lines 47-49):
filters `self.leaders.values()` on `status == ACTIVE`; no other condition is
applied. -/
def getActiveLeaders (leaders : List Leader) : List Leader :=
  leaders.filter (fun l => l.status = LeaderStatus.active)

/-! ## Orchestrator main loop (`copy_trade_bot/main.py` lines 116-141)

`_main_loop` runs `while self.running`: each iteration updates rankings,
fetches and processes signals, updates metrics, then polls
`RiskManager.check_limits()` and `break`s when it returns false, else sleeps
and iterates again.  With the components as implemented, none of the body
calls before the poll can raise (each catches its own exceptions and
`get_signals` is a stub returning `[]`), so the `except` branch of the loop is
unreachable and every iteration reaches the poll.  `limits t` models the value
returned by the `check_limits()` poll of iteration `t` (for the risk manager
as implemented this is `check_limits = true` at every `t`); `fuel` bounds the
observation window of the potentially infinite loop.  The result is the list
of iterations started. -/
def mainLoopTicks (limits : ℕ → Bool) : ℕ → ℕ → List ℕ
  | _, 0 => []
  | t, fuel + 1 =>
    t :: (if limits t then mainLoopTicks limits (t + 1) fuel else [])

/-- `_main_loop` observed from its first iteration. -/
def mainLoop (limits : ℕ → Bool) (fuel : ℕ) : List ℕ :=
  mainLoopTicks limits 0 fuel

/-! ## Leader snapshot diffing

Modelled from the spec: the LeaderTracker diff algorithm (§4.2 of the spec).
The code's signal detection (`SignalProcessor.get_signals`,
`signals/processor.py` lines 35-38) is a `TODO` stub returning `[]`; no diff
algorithm exists in the source, so the diff is taken from the spec's words:
per asset, a nonzero position size change emits `PositionUpdate` with the
signed delta; an order present in current but not previous emits `NewOrder`;
an order present in previous but not current emits `ModifyOrder` with the
filled delta when the position moved, `CancelOrder` when it did not. -/
structure OrderSnap where
  oid : String
  asset : String
  size : ℚ
  price : ℚ
  deriving DecidableEq, Repr

/-- Modelled from the spec: a leader's point-in-time state (§3): positions as
an asset-to-signed-size association list, plus open orders. -/
structure LeaderSnapshot where
  positions : List (String × ℚ)
  orders : List OrderSnap
  deriving DecidableEq, Repr

/-- Modelled from the spec: the deltas the diff emits (§4.2). -/
inductive Delta where
  | positionUpdate (asset : String) (dsize : ℚ)
  | newOrder (o : OrderSnap)
  | modifyOrder (o : OrderSnap) (filled : ℚ)
  | cancelOrder (o : OrderSnap)
  deriving DecidableEq, Repr

/-- Size of the position held in `ps` on asset `a` (0 when absent). -/
def lookupSize (ps : List (String × ℚ)) (a : String) : ℚ :=
  ((ps.find? (fun p => p.1 = a)).map Prod.snd).getD 0

/-- The assets mentioned by either snapshot's positions. -/
def assetList (prev curr : List (String × ℚ)) : List String :=
  (prev.map Prod.fst ++ curr.map Prod.fst).dedup

/-- Modelled from the spec: per-asset position diff (§4.2, first bullet). -/
def positionDeltas (prev curr : List (String × ℚ)) : List Delta :=
  (assetList prev curr).filterMap (fun a =>
    let d := lookupSize curr a - lookupSize prev a
    if d = 0 then none else some (Delta.positionUpdate a d))

/-- Does `os` contain an order with id `oid`? -/
def hasOrder (os : List OrderSnap) (oid : String) : Bool :=
  os.any (fun o => o.oid = oid)

/-- Modelled from the spec: orders present in current but absent from
previous (§4.2, second bullet). -/
def newOrderDeltas (prev curr : LeaderSnapshot) : List Delta :=
  curr.orders.filterMap (fun o =>
    if hasOrder prev.orders o.oid then none else some (Delta.newOrder o))

/-- Modelled from the spec: orders present in previous, absent from current
(§4.2, third bullet): `ModifyOrder` with the filled delta when the leader's
position on the order's asset moved, `CancelOrder` when it did not. -/
def removedOrderDeltas (prev curr : LeaderSnapshot) : List Delta :=
  prev.orders.filterMap (fun o =>
    if hasOrder curr.orders o.oid then none
    else
      let d := lookupSize curr.positions o.asset - lookupSize prev.positions o.asset
      if d = 0 then some (Delta.cancelOrder o) else some (Delta.modifyOrder o d))

/-- Modelled from the spec: the full snapshot diff (§4.2). -/
def diffSnapshots (prev curr : LeaderSnapshot) : List Delta :=
  positionDeltas prev.positions curr.positions ++
    newOrderDeltas prev curr ++ removedOrderDeltas prev curr

/-! ## Helper lemmas -/

/-- `validateRiskFields` written as nested conditionals. -/
lemma validateRiskFields_eq (mdl mps mte : ℚ) (slip : ℤ) :
    validateRiskFields mdl mps mte slip =
      if 0 ≤ mdl ∧ mdl ≤ 1 then
        if 0 ≤ mps ∧ mps ≤ 1 then
          if 0 ≤ mte ∧ mte ≤ 1 then
            if slip < 0 ∨ slip > 1000 then
              Except.error "Slippage must be between 0 and 1000 bps"
            else Except.ok (mdl, mps, mte, slip)
          else Except.error "Percentage must be between 0 and 1"
        else Except.error "Percentage must be between 0 and 1"
      else Except.error "Percentage must be between 0 and 1" := by
  unfold validateRiskFields validate_percentage validate_slippage
  split_ifs <;> rfl

/-- The wrapper performs at most `rem + 1` invocations. -/
lemma retryAux_count_le {ε α : Type} (f : ℕ → Except ε α) :
    ∀ rem att, (retryAux f att rem).2 ≤ rem + 1 := by
  intro rem
  induction rem with
  | zero =>
    intro att
    cases h : f att <;> simp [retryAux, h]
  | succ r ih =>
    intro att
    cases h : f att with
    | error e =>
      have hih := ih (att + 1)
      simp only [retryAux, h]
      omega
    | ok a => simp [retryAux, h]

/-- If the first `j` invocations from `att` raise and invocation `att + j`
returns, the wrapper returns that value after exactly `j + 1` invocations. -/
lemma retryAux_first_ok {ε α : Type} (f : ℕ → Except ε α) (a : α) :
    ∀ j att rem, j ≤ rem → (∀ i, i < j → ∃ e, f (att + i) = Except.error e) →
      f (att + j) = Except.ok a → retryAux f att rem = (Except.ok a, j + 1) := by
  intro j
  induction j with
  | zero =>
    intro att rem _ _ hok
    rw [Nat.add_zero] at hok
    cases rem <;> simp [retryAux, hok]
  | succ j ih =>
    intro att rem hle herr hok
    obtain ⟨e, he⟩ := herr 0 (Nat.succ_pos j)
    rw [Nat.add_zero] at he
    cases rem with
    | zero => omega
    | succ r =>
      have h2 : ∀ i, i < j → ∃ e, f (att + 1 + i) = Except.error e := by
        intro i hi
        obtain ⟨e2, he2⟩ := herr (i + 1) (by omega)
        exact ⟨e2, by rw [show att + 1 + i = att + (i + 1) by omega]; exact he2⟩
      have h3 : f (att + 1 + j) = Except.ok a := by
        rw [show att + 1 + j = att + (j + 1) by omega]; exact hok
      have hrec := ih (att + 1) r (by omega) h2 h3
      simp [retryAux, he, hrec]

/-- If every invocation up to `att + rem` raises, the wrapper performs all
`rem + 1` invocations and re-raises the outcome of the last one. -/
lemma retryAux_all_error {ε α : Type} (f : ℕ → Except ε α) :
    ∀ rem att, (∀ i, i ≤ rem → ∃ e, f (att + i) = Except.error e) →
      retryAux f att rem = (f (att + rem), rem + 1) := by
  intro rem
  induction rem with
  | zero =>
    intro att h
    obtain ⟨e, he⟩ := h 0 le_rfl
    rw [Nat.add_zero] at he
    rw [Nat.add_zero]
    simp [retryAux, he]
  | succ r ih =>
    intro att h
    obtain ⟨e, he⟩ := h 0 (by omega)
    rw [Nat.add_zero] at he
    have hrec := ih (att + 1) (by
      intro i hi
      obtain ⟨e2, he2⟩ := h (i + 1) (by omega)
      exact ⟨e2, by rw [show att + 1 + i = att + (i + 1) by omega]; exact he2⟩)
    rw [show att + (r + 1) = att + 1 + r by omega]
    simp [retryAux, he, hrec]

/-! ## Claims -/

/-- Claim C9: constructing a `Config` raises a `ValueError` whenever
`max_daily_loss`, `max_position_size` or `max_total_exposure` lies outside
`[0, 1]` or `default_slippage_bps` lies outside `[0, 1000]`, and accepts with
the given values stored unchanged whenever each field lies inside its
range. -/
theorem config_risk_bounds (mdl mps mte : ℚ) (slip : ℤ) :
    ((∃ t, validateRiskFields mdl mps mte slip = Except.ok t) ↔
      (0 ≤ mdl ∧ mdl ≤ 1) ∧ (0 ≤ mps ∧ mps ≤ 1) ∧ (0 ≤ mte ∧ mte ≤ 1) ∧
        (0 ≤ slip ∧ slip ≤ 1000)) ∧
    ((0 ≤ mdl ∧ mdl ≤ 1) ∧ (0 ≤ mps ∧ mps ≤ 1) ∧ (0 ≤ mte ∧ mte ≤ 1) ∧
        (0 ≤ slip ∧ slip ≤ 1000) →
      validateRiskFields mdl mps mte slip = Except.ok (mdl, mps, mte, slip)) := by
  rw [validateRiskFields_eq]
  split_ifs with h1 h2 h3 h4
  · refine ⟨⟨fun ⟨t, ht⟩ => by simp at ht,
      fun hb => absurd h4 (by obtain ⟨-, -, -, h5⟩ := hb; omega)⟩,
      fun hb => absurd h4 (by obtain ⟨-, -, -, h5⟩ := hb; omega)⟩
  · exact ⟨⟨fun _ => ⟨h1, h2, h3, by omega⟩, fun _ => ⟨(mdl, mps, mte, slip), rfl⟩⟩,
      fun _ => rfl⟩
  · refine ⟨⟨fun ⟨t, ht⟩ => by simp at ht, fun hb => absurd hb.2.2.1 h3⟩,
      fun hb => absurd hb.2.2.1 h3⟩
  · refine ⟨⟨fun ⟨t, ht⟩ => by simp at ht, fun hb => absurd hb.2.1 h2⟩,
      fun hb => absurd hb.2.1 h2⟩
  · refine ⟨⟨fun ⟨t, ht⟩ => by simp at ht, fun hb => absurd hb.1 h1⟩,
      fun hb => absurd hb.1 h1⟩

/-- Witness for C9 at the default configuration values
(`max_daily_loss = 0.05`, `max_position_size = 0.1`,
`max_total_exposure = 0.5`, `default_slippage_bps = 50`). -/
theorem config_risk_bounds_witness :
    validateRiskFields (1 / 20) (1 / 10) (1 / 2) 50 =
      Except.ok (1 / 20, 1 / 10, 1 / 2, 50) :=
  (config_risk_bounds (1 / 20) (1 / 10) (1 / 2) 50).2 (by norm_num)

/-- Claim C6: the backoff delay for attempt `k` equals
`min(base_delay * exponential_base ^ k, max_delay)` when jitter is disabled,
and with jitter enabled lies between that value and 1.25 times it. -/
theorem get_retry_delay_bounds (k : ℕ) (base maxd eb r : ℚ)
    (hb : 0 < base) (he : 0 < eb) (hm : 0 < maxd) (hr0 : 0 ≤ r) (hr1 : r < 1) :
    getRetryDelay k base maxd eb false r = min (base * eb ^ k) maxd ∧
    min (base * eb ^ k) maxd ≤ getRetryDelay k base maxd eb true r ∧
    getRetryDelay k base maxd eb true r ≤ 5 / 4 * min (base * eb ^ k) maxd := by
  have hd : 0 < min (base * eb ^ k) maxd := lt_min (by positivity) hm
  have htrue : getRetryDelay k base maxd eb true r =
      min (base * eb ^ k) maxd + min (base * eb ^ k) maxd * (1 / 4) * r := rfl
  refine ⟨rfl, ?_, ?_⟩
  · rw [htrue]; nlinarith
  · rw [htrue]; nlinarith

/-- Witness for C6 at `k = 0`, `base_delay = 1`, `max_delay = 60`,
`exponential_base = 2`, `random() = 1/2`. -/
theorem get_retry_delay_bounds_witness :
    getRetryDelay 0 1 60 2 false (1 / 2) = min ((1 : ℚ) * 2 ^ 0) 60 ∧
    min ((1 : ℚ) * 2 ^ 0) 60 ≤ getRetryDelay 0 1 60 2 true (1 / 2) ∧
    getRetryDelay 0 1 60 2 true (1 / 2) ≤ 5 / 4 * min ((1 : ℚ) * 2 ^ 0) 60 :=
  get_retry_delay_bounds 0 1 60 2 (1 / 2) (by norm_num) (by norm_num)
    (by norm_num) (by norm_num) (by norm_num)

/-- Claim C10: a wrapper built by `retry_with_backoff` with
`max_retries = n` invokes the wrapped function at most `n + 1` times; the
first invocation that returns has its value returned unchanged with no
further invocations; and if all `n + 1` invocations raise a caught exception,
the wrapper re-raises the exception of the last invocation. -/
theorem retry_with_backoff_spec {ε α : Type} (f : ℕ → Except ε α) (n : ℕ) :
    (syncWrapper f n).2 ≤ n + 1 ∧
    (∀ j a, j ≤ n → (∀ i, i < j → ∃ e, f i = Except.error e) →
      f j = Except.ok a → syncWrapper f n = (Except.ok a, j + 1)) ∧
    ((∀ i, i ≤ n → ∃ e, f i = Except.error e) →
      syncWrapper f n = (f n, n + 1)) := by
  refine ⟨retryAux_count_le f n 0, ?_, ?_⟩
  · intro j a hle herr hok
    have h := retryAux_first_ok f a j 0 n hle (by simpa using herr) (by simpa using hok)
    simpa [syncWrapper] using h
  · intro hall
    have h := retryAux_all_error f n 0 (by simpa using hall)
    simpa [syncWrapper] using h

/-- A wrapped-function behaviour that raises on every invocation. -/
def failBeh : ℕ → Except String ℤ :=
  fun _ => Except.error "boom"

/-- Witness for C10: with `max_retries = 2` and every invocation raising,
the wrapper performs 3 invocations and re-raises the last exception. -/
theorem retry_with_backoff_spec_witness :
    syncWrapper failBeh 2 = (Except.error "boom", 3) :=
  (retry_with_backoff_spec failBeh 2).2.2 (fun _ _ => ⟨"boom", rfl⟩)

/-- Claim C5: `get_multiple_leaders_data` keeps an entry for every address
whose fetch succeeded; a failing fetch is skipped without propagating and
without removing other leaders' results, and every entry in the result comes
from a successful fetch of a requested address. -/
theorem get_multiple_leaders_data_isolated {δ : Type}
    (fetch : String → Except String δ) (addrs : List String) :
    (∀ a d, a ∈ addrs → fetch a = Except.ok d →
      (a, d) ∈ getMultipleLeadersData fetch addrs) ∧
    (∀ p, p ∈ getMultipleLeadersData fetch addrs →
      p.1 ∈ addrs ∧ fetch p.1 = Except.ok p.2) := by
  induction addrs with
  | nil => simp [getMultipleLeadersData]
  | cons a rest ih =>
    cases h : fetch a with
    | ok d0 =>
      constructor
      · intro b d hmem hok
        simp only [getMultipleLeadersData, h]
        rcases List.mem_cons.mp hmem with heq | hmem2
        · subst heq
          rw [h] at hok
          obtain rfl : d0 = d := by injection hok
          exact List.mem_cons_self _ _
        · exact List.mem_cons_of_mem _ (ih.1 b d hmem2 hok)
      · intro p hp
        simp only [getMultipleLeadersData, h] at hp
        rcases List.mem_cons.mp hp with heq | hp2
        · subst heq
          exact ⟨List.mem_cons_self _ _, h⟩
        · obtain ⟨hm, ho⟩ := ih.2 p hp2
          exact ⟨List.mem_cons_of_mem _ hm, ho⟩
    | error e =>
      constructor
      · intro b d hmem hok
        simp only [getMultipleLeadersData, h]
        rcases List.mem_cons.mp hmem with heq | hmem2
        · subst heq
          rw [h] at hok
          exact absurd hok (by simp)
        · exact ih.1 b d hmem2 hok
      · intro p hp
        simp only [getMultipleLeadersData, h] at hp
        obtain ⟨hm, ho⟩ := ih.2 p hp
        exact ⟨List.mem_cons_of_mem _ hm, ho⟩

/-- A `get_leader_data` behaviour where exactly leader "L2" fails (as it does
when both providers are unavailable for it). -/
def fetchExample : String → Except String ℤ :=
  fun a => if a = "L2" then Except.error "both providers failed" else Except.ok 7

/-- Witness for C5: with leader "L2" failing, leader "L1" still gets its
entry in the result of `get_multiple_leaders_data`. -/
theorem get_multiple_leaders_data_isolated_witness :
    ("L1", (7 : ℤ)) ∈ getMultipleLeadersData fetchExample ["L1", "L2", "L3"] :=
  (get_multiple_leaders_data_isolated fetchExample ["L1", "L2", "L3"]).1 "L1" 7
    (by simp) (by simp [fetchExample])

/-- Iterations of `_main_loop` only start while every earlier
`check_limits()` poll returned true. -/
lemma mainLoopTicks_mem {limits : ℕ → Bool} :
    ∀ fuel t k, k ∈ mainLoopTicks limits t fuel →
      t ≤ k ∧ ∀ j, t ≤ j → j < k → limits j = true := by
  intro fuel
  induction fuel with
  | zero =>
    intro t k hk
    simp [mainLoopTicks] at hk
  | succ n ih =>
    intro t k hk
    simp only [mainLoopTicks] at hk
    rcases List.mem_cons.mp hk with heq | hk2
    · subst heq
      exact ⟨le_rfl, fun j hj1 hj2 => absurd hj1 (by omega)⟩
    · by_cases hl : limits t
      · rw [if_pos hl] at hk2
        obtain ⟨h1, h2⟩ := ih (t + 1) k hk2
        refine ⟨by omega, fun j hj1 hj2 => ?_⟩
        rcases eq_or_lt_of_le hj1 with heq2 | hlt
        · subst heq2; exact hl
        · exact h2 j (by omega) hj2
      · rw [if_neg hl] at hk2
        simp at hk2

/-- Claim C2: every iteration of the orchestrator's main loop polls
`RiskManager.check_limits()` and the loop breaks as soon as a poll returns
false: iteration `k` only starts if every earlier poll returned true, so
after a false poll no further iteration ever runs (the loop is not
resumed). -/
theorem main_loop_kill_switch (limits : ℕ → Bool) (fuel k : ℕ)
    (hk : k ∈ mainLoop limits fuel) :
    ∀ j, j < k → limits j = true := by
  intro j hj
  obtain ⟨-, h2⟩ := mainLoopTicks_mem fuel 0 k hk
  exact h2 j (Nat.zero_le j) hj

/-- A `check_limits` poll behaviour that returns false from the second poll
on. -/
def limitsExample : ℕ → Bool :=
  fun n => n == 0

/-- Witness for C2: with `check_limits` true at tick 0 and false at tick 1,
iteration 1 runs (so poll 0 must have been true) and no tick beyond 1 is in
the observed loop. -/
theorem main_loop_kill_switch_witness :
    (1 ∈ mainLoop limitsExample 5) ∧ limitsExample 0 = true :=
  ⟨by decide, main_loop_kill_switch limitsExample 5 1 (by decide) 0 (by decide)⟩

/-- A primary-provider behaviour that fails on every call. -/
def localDown : ℕ → Except String ℤ :=
  fun _ => Except.error "connection refused"

/-- A secondary-provider behaviour that succeeds on every call. -/
def publicUp : ℕ → Except String ℤ :=
  fun _ => Except.ok 42

/-- Counterexample to C3: when the primary fails and the secondary works,
`get_user_state` calls the primary exactly once and then immediately calls
the secondary — the claimed trace, with the primary retried once before the
failover (primary, primary, secondary), is not what the code produces. -/
theorem get_user_state_no_primary_retry :
    getUserStateTrace localDown publicUp =
      (Except.ok 42, [Provider.primary, Provider.secondary]) ∧
    [Provider.primary, Provider.secondary] ≠
      [Provider.primary, Provider.primary, Provider.secondary] := by
  exact ⟨rfl, by decide⟩

/-- Claim C3 as amended: the primary is tried first and on any error the call
immediately falls over to the secondary with no same-provider retry; the
`retry_on_api_error` wrapper then retries the whole primary-then-secondary
sequence up to 3 more times; if every attempt fails, the call raises the last
secondary error (there is no dedicated `DataUnavailable` type) rather than
returning a value. -/
theorem get_user_state_failover (localBeh publicBeh : ℕ → Except String ℤ)
    (el ep : ℕ → String)
    (hl : ∀ n, localBeh n = Except.error (el n))
    (hp : ∀ n, publicBeh n = Except.error (ep n)) :
    getUserStateTrace localBeh publicBeh =
      (Except.error (ep 3),
        [Provider.primary, Provider.secondary, Provider.primary,
         Provider.secondary, Provider.primary, Provider.secondary,
         Provider.primary, Provider.secondary]) := by
  simp [getUserStateTrace, getUserStateAux, hl, hp]

/-- A secondary-provider behaviour that fails on every call. -/
def publicDown : ℕ → Except String ℤ :=
  fun _ => Except.error "rate limited"

/-- Witness for the amended C3: with both providers failing on every call,
the call makes 4 alternating primary/secondary attempts and raises the
final secondary error. -/
theorem get_user_state_failover_witness :
    getUserStateTrace localDown publicDown =
      (Except.error "rate limited",
        [Provider.primary, Provider.secondary, Provider.primary,
         Provider.secondary, Provider.primary, Provider.secondary,
         Provider.primary, Provider.secondary]) :=
  get_user_state_failover localDown publicDown
    (fun _ => "connection refused") (fun _ => "rate limited")
    (fun _ => rfl) (fun _ => rfl)

/-- A concrete signal (an order far larger than any margin could support). -/
def sigExample : Signal :=
  { id := "sig-1"
    leader_address := "0xleader"
    signal_type := SignalType.newOrder
    asset := "ETH"
    side := OrderSide.buy
    size := 1000000
    price := some 2000
    timestamp := 1 }

/-- A cached risk state far past the daily-loss limit, with trading halted. -/
def haltedRisk : RiskState :=
  { total_exposure := 0
    daily_pnl := -1000
    halted := true }

/-- Claim C1 (code bug): with the cached risk state's daily loss far past
`max_daily_loss = 0.05` and the halted flag set, the `TODO` stub
`can_execute_signal` still returns true, so `_process_signal` does not reject
the signal and `execute_signal` is reached. -/
theorem can_execute_signal_stub_bug :
    haltedRisk.halted = true ∧
    haltedRisk.daily_pnl < -(1 / 20) ∧
    canExecuteSignal (1 / 20) haltedRisk sigExample = true ∧
    processSignal (1 / 20) haltedRisk sigExample = some (executeSignal sigExample) :=
  ⟨rfl, by norm_num [haltedRisk], rfl, rfl⟩

/-- Claim C4 (code bug): the `TODO` stub `execute_signal` never submits and
never fails: for every signal it returns `success = true` with no error and
the placeholder order id, so a fatal submission failure can never surface as
a failed `ExecutionResult`. -/
theorem execute_signal_stub_bug (s : Signal) :
    (executeSignal s).success = true ∧ (executeSignal s).error = none ∧
    (executeSignal s).order_id = some "test_order_123" :=
  ⟨rfl, rfl, rfl⟩

/-- The `banned_leaders` configuration of the failing scenario. -/
def bannedLeadersExample : List String :=
  ["0xbad"]

/-- An active leader whose address is banned. -/
def bannedActiveLeader : Leader :=
  { address := "0xbad"
    status := LeaderStatus.active
    equity := 50000
    weight := 1 }

/-- Claim C7 (code bug): `update_rankings` is a `TODO` no-op and
`get_active_leaders` filters on status only, so a leader whose address is in
`banned_leaders` but whose status is active is returned as an active
leader. -/
theorem get_active_leaders_ignores_banned :
    bannedActiveLeader.address ∈ bannedLeadersExample ∧
    getActiveLeaders (updateRankings [bannedActiveLeader]) = [bannedActiveLeader] := by
  exact ⟨by simp [bannedLeadersExample, bannedActiveLeader], rfl⟩

/-- Claim C8: diffing a leader snapshot against an identical previous
snapshot produces zero deltas, so observing the same state twice emits no
signals. -/
theorem diff_same_snapshot_empty (s : LeaderSnapshot) :
    diffSnapshots s s = [] := by
  have h1 : positionDeltas s.positions s.positions = [] := by
    unfold positionDeltas
    apply List.filterMap_eq_nil_iff.mpr
    intro a ha
    simp [sub_self]
  have h2 : newOrderDeltas s s = [] := by
    unfold newOrderDeltas
    apply List.filterMap_eq_nil_iff.mpr
    intro o ho
    have hh : hasOrder s.orders o.oid = true := by
      simp [hasOrder, List.any_eq_true]
      exact ⟨o, ho, rfl⟩
    simp [hh]
  have h3 : removedOrderDeltas s s = [] := by
    unfold removedOrderDeltas
    apply List.filterMap_eq_nil_iff.mpr
    intro o ho
    have hh : hasOrder s.orders o.oid = true := by
      simp [hasOrder, List.any_eq_true]
      exact ⟨o, ho, rfl⟩
    simp [hh]
  simp [diffSnapshots, h1, h2, h3]

end CopyTradeBot
